import Mathlib

/-!
Verification development for the HTTP gateway plugin (rr-http-plugin).

Shallow embedding of the request-handling core:
  * the live HTTP response writer (Go net/http semantics: headers are a
    mutable map, `WriteHeader` commits status and a snapshot of the headers
    exactly once, `Write` commits status 200 first if nothing is committed);
  * the internal error taxonomy of the roadrunner errors package and
    `Handler.handleError` (src/handler/handler_nightly.go);
  * `Handler.ServeHTTP`: the Content-Length prelude, request translation,
    payload forming, and the streaming dispatcher loop;
  * the object pools: `putReq`/`getReq` (src/unnamed/part_000) and
    `putPld`;
  * the RPC `Release` control call (src/rpc.go).

Strings are modelled as lists of characters; Go's
`strings.ReplaceAll(s, onechar, "")` is removal of each occurrence of that
character.
-/

namespace RRHttp

/-- Strings of the embedded program, modelled as lists of characters. -/
abbrev Str := List Char

/-! ## Response writer (Go net/http semantics) -/

/-- Remove every binding of key `k` from an association list of headers. -/
def removeKey (m : List (Str × Str)) (k : Str) : List (Str × Str) :=
  m.filter (fun kv => !(kv.fst == k))

/-- Header-map update with `Header().Set` semantics: the new binding
replaces any previous binding of the key. -/
def insertHeader (m : List (Str × Str)) (k v : Str) : List (Str × Str) :=
  (k, v) :: removeKey m k

/-- Look up a header key in an association list. -/
def lookupHeader (m : List (Str × Str)) (k : Str) : Option Str :=
  match m with
  | [] => none
  | kv :: rest => if kv.fst == k then some kv.snd else lookupHeader rest k

/-- The live `http.ResponseWriter`.  `headerMap` is the mutable header map;
`committedStatus`/`committedHeaders` are the status line and header snapshot
actually sent to the client by the first `WriteHeader` (or first `Write`);
`body` is every byte written to the client after the header section. -/
structure RespWriter where
  headerMap : List (Str × Str)
  committedStatus : Option Nat
  committedHeaders : List (Str × Str)
  body : Str
deriving DecidableEq, Repr

/-- A fresh response writer for a new request. -/
def RespWriter.init : RespWriter := ⟨[], none, [], []⟩

/-- Go `w.Header().Set(k, v)`: mutates the header map; has no effect on the
wire once the headers are committed. -/
def RespWriter.setHeader (w : RespWriter) (k v : Str) : RespWriter :=
  { w with headerMap := insertHeader w.headerMap k v }

/-- Go `w.WriteHeader(code)`: commits the status and the current header map
on the first call; superfluous later calls are ignored. -/
def RespWriter.writeHeader (w : RespWriter) (code : Nat) : RespWriter :=
  match w.committedStatus with
  | some _ => w
  | none => { w with committedStatus := some code, committedHeaders := w.headerMap }

/-- Go `w.Write(bs)`: commits status 200 if nothing is committed yet, then
appends the bytes to the response body. -/
def RespWriter.write (w : RespWriter) (bs : Str) : RespWriter :=
  let w := w.writeHeader 200
  { w with body := w.body ++ bs }

/-- Go `http.Error(w, msg, code)`: writes the status, then the message
followed by a newline as the body. -/
def httpError (w : RespWriter) (msg : Str) (code : Nat) : RespWriter :=
  (w.writeHeader code).write (msg ++ [Char.ofNat 10])

/-! ## Error taxonomy (roadrunner errors package) -/

/-- Internal error kinds tested by `handleError`, plus `other` for any error
outside the internal taxonomy (carrying its message text). -/
inductive RRError where
  | noFreeWorkers
  | softJob
  | watcherStopped
  | workerAllocate
  | execTTL
  | idleTTL
  | ttl
  | encode
  | decode
  | network
  | other (msg : Str)
deriving DecidableEq, Repr, BEq

/-- Membership in the second `if` of `handleError`: the nine internal error
kinds that map to the configured internal status without a header. -/
def inTaxonomy (e : RRError) : Bool :=
  match e with
  | .softJob | .watcherStopped | .workerAllocate | .execTTL | .idleTTL
  | .ttl | .encode | .decode | .network => true
  | _ => false

/-- The `No-Workers` response-header key. -/
def noWorkersKey : Str := "No-Workers".toList

/-- The string `"true"` used as the saturation header value. -/
def trueVal : Str := "true".toList

/-! ## Handler configuration -/

/-- Configuration fields of `Handler` that the claims depend on.
`maxRequestSize` holds the uint64 byte ceiling (`maxReqSize * MB`). -/
structure Handler where
  maxRequestSize : Nat
  internalHTTPCode : Nat
  accessLogs : Bool
deriving DecidableEq, Repr

/-- Bytes per megabyte (`MB` constant of the handler package). -/
def MB : Nat := 1024 * 1024

/-- Construction of the handler configuration performed by `NewHandler`:
the configured size is in megabytes and stored in bytes as a uint64. -/
def NewHandler (maxReqSize internalHTTPCode : Nat) (accessLogs : Bool) : Handler :=
  ⟨(maxReqSize * MB) % (2 ^ 64), internalHTTPCode, accessLogs⟩

/-- Embedding of `Handler.handleError`
(src/handler/handler_nightly.go lines 261-281): on the no-free-workers kind
set the `No-Workers: true` header and write the configured internal status;
then, on any of the nine internal kinds, write the configured internal
status.  The two `if` statements are sequential, not exclusive. -/
def handleError (h : Handler) (w : RespWriter) (e : RRError) : RespWriter :=
  let w :=
    if e = .noFreeWorkers then
      (w.setHeader noWorkersKey trueVal).writeHeader h.internalHTTPCode
    else w
  if inTaxonomy e then w.writeHeader h.internalHTTPCode else w

/-- Whether the saturation header is set (to `"true"`) in the header map. -/
def hasNoWorkersHeader (w : RespWriter) : Bool :=
  lookupHeader w.headerMap noWorkersKey == some trueVal

/-! ## Basic response-writer lemmas -/

theorem setHeader_body (w : RespWriter) (k v : Str) :
    (w.setHeader k v).body = w.body := rfl

theorem setHeader_committedStatus (w : RespWriter) (k v : Str) :
    (w.setHeader k v).committedStatus = w.committedStatus := rfl

theorem writeHeader_body (w : RespWriter) (c : Nat) :
    (w.writeHeader c).body = w.body := by
  unfold RespWriter.writeHeader
  cases w.committedStatus <;> rfl

theorem writeHeader_of_committed (w : RespWriter) (c s : Nat)
    (h : w.committedStatus = some s) : w.writeHeader c = w := by
  unfold RespWriter.writeHeader
  rw [h]

theorem writeHeader_of_uncommitted (w : RespWriter) (c : Nat)
    (h : w.committedStatus = none) :
    w.writeHeader c =
      { w with committedStatus := some c, committedHeaders := w.headerMap } := by
  unfold RespWriter.writeHeader
  rw [h]

theorem writeHeader_headerMap (w : RespWriter) (c : Nat) :
    (w.writeHeader c).headerMap = w.headerMap := by
  unfold RespWriter.writeHeader
  cases w.committedStatus <;> rfl

theorem write_body (w : RespWriter) (bs : Str) :
    (w.write bs).body = w.body ++ bs := by
  simp only [RespWriter.write, writeHeader_body]

theorem write_committedStatus_of_committed (w : RespWriter) (bs : Str) (s : Nat)
    (h : w.committedStatus = some s) :
    (w.write bs).committedStatus = some s := by
  unfold RespWriter.write
  rw [writeHeader_of_committed w 200 s h, h]

theorem write_committedHeaders_of_committed (w : RespWriter) (bs : Str) (s : Nat)
    (h : w.committedStatus = some s) :
    (w.write bs).committedHeaders = w.committedHeaders := by
  unfold RespWriter.write
  rw [writeHeader_of_committed w 200 s h]

theorem handleError_body (h : Handler) (w : RespWriter) (e : RRError) :
    (handleError h w e).body = w.body := by
  unfold handleError
  cases e <;> simp [inTaxonomy, writeHeader_body, setHeader_body]

theorem handleError_committedStatus_of_committed (h : Handler) (w : RespWriter)
    (e : RRError) (s : Nat) (hc : w.committedStatus = some s) :
    (handleError h w e).committedStatus = some s := by
  unfold handleError
  cases e <;>
    simp [inTaxonomy, RespWriter.writeHeader, RespWriter.setHeader, hc]

theorem handleError_committedHeaders_of_committed (h : Handler) (w : RespWriter)
    (e : RRError) (s : Nat) (hc : w.committedStatus = some s) :
    (handleError h w e).committedHeaders = w.committedHeaders := by
  unfold handleError
  cases e <;>
    simp [inTaxonomy, RespWriter.writeHeader, RespWriter.setHeader, hc]

/-! ## Content-Length parsing (strconv.ParseInt(s, 10, 64)) -/

/-- Largest int64 value. -/
def int64Max : Int := 2 ^ 63 - 1

/-- Smallest int64 value. -/
def int64Min : Int := -(2 ^ 63)

/-- Numeric value of a decimal digit character. -/
def digitVal (c : Char) : Option Nat :=
  if '0' ≤ c ∧ c ≤ '9' then some (c.toNat - '0'.toNat) else none

/-- Accumulate decimal digits; fails on any non-digit character. -/
def parseDigitsAux : Str → Nat → Option Nat
  | [], acc => some acc
  | c :: cs, acc =>
    match digitVal c with
    | some d => parseDigitsAux cs (acc * 10 + d)
    | none => none

/-- Parse a non-empty all-digit string as a natural number. -/
def parseDigits (s : Str) : Option Nat :=
  match s with
  | [] => none
  | _ => parseDigitsAux s 0

/-- Range check of the non-negative branches of `ParseInt`: overflow is an
error (Go reports `ErrRange` with a non-nil error). -/
def clampPos (m : Nat) : Option Int :=
  if (m : Int) ≤ int64Max then some (m : Int) else none

/-- Range check of the negative branch of `ParseInt`. -/
def clampNeg (m : Nat) : Option Int :=
  if int64Min ≤ -(m : Int) then some (-(m : Int)) else none

/-- Embedding of Go `strconv.ParseInt(s, 10, 64)`: optional sign, at least
one decimal digit, int64 range check; any other input is an error
(modelled as `none`). -/
def parseInt64 (s : Str) : Option Int :=
  match s with
  | [] => none
  | c :: rest =>
    if c = '+' then Option.bind (parseDigits rest) clampPos
    else if c = '-' then Option.bind (parseDigits rest) clampNeg
    else Option.bind (parseDigits (c :: rest)) clampPos

theorem clampPos_le (m : Nat) (n : Int) (h : clampPos m = some n) :
    n ≤ int64Max := by
  unfold clampPos at h
  split at h
  · cases h
    assumption
  · cases h

theorem clampNeg_le (m : Nat) (n : Int) (h : clampNeg m = some n) :
    n ≤ int64Max := by
  unfold clampNeg at h
  split at h
  · cases h
    unfold int64Max
    omega
  · cases h

theorem parseInt64_le (s : Str) (n : Int) (hp : parseInt64 s = some n) :
    n ≤ int64Max := by
  unfold parseInt64 at hp
  match s with
  | [] => cases hp
  | c :: rest =>
    simp only at hp
    split at hp
    · obtain ⟨m, _, hmc⟩ := Option.bind_eq_some.mp hp
      exact clampPos_le m n hmc
    · split at hp
      · obtain ⟨m, _, hmc⟩ := Option.bind_eq_some.mp hp
        exact clampNeg_le m n hmc
      · obtain ⟨m, _, hmc⟩ := Option.bind_eq_some.mp hp
        exact clampPos_le m n hmc

/-- Go conversion `int64(u)` of a uint64 value `u < 2^64`. -/
def toInt64 (u : Nat) : Int := ((u : Int) + 2 ^ 63) % 2 ^ 64 - 2 ^ 63

theorem toInt64_of_lt (u : Nat) (hu : u < 2 ^ 63) : toInt64 u = (u : Int) := by
  unfold toInt64
  have h1 : (0 : Int) ≤ (u : Int) + 2 ^ 63 := by positivity
  have h2 : (u : Int) + 2 ^ 63 < 2 ^ 64 := by
    have : (u : Int) < 2 ^ 63 := by exact_mod_cast hu
    omega
  rw [Int.emod_eq_of_lt h1 h2]
  omega

/-! ## Error message formatting (roadrunner errors package, external) -/

/-- Modelled from the errors library interface: `errors.E(op, err).Error()`
renders as the operation name, a separator, and the wrapped error text. -/
def errWrap (op m : Str) : Str := op ++ ": ".toList ++ m

/-- Operation name of `ServeHTTP`. -/
def serveOp : Str := "serve_http".toList

/-- Operation name of the max-size prelude. -/
def maxSizeOp : Str := "http_handler_max_size".toList

/-- Body written by the oversized-request 400 response
(`errors.E(op, errors.Str("request body max size is exceeded")).Error()`). -/
def oversizedMsg : Str := errWrap maxSizeOp ("request body max size is exceeded".toList)

/-- Embedding of the request-size validation prelude of `ServeHTTP`
(src/handler/handler_nightly.go lines 105-123).  Returns `some w` when
`ServeHTTP` returns early with response writer `w`; `none` means control
falls through to request translation.  The header string is `[]` when the
`Content-Length` header is absent (Go `Header.Get` returns the empty
string). -/
def checkMaxSize (h : Handler) (w : RespWriter) (cl : Str) : Option RespWriter :=
  if h.maxRequestSize = 0 then none
  else if cl = [] then none
  else
    match parseInt64 cl with
    | none => some (httpError w [] 500)
    | some size =>
      if toInt64 h.maxRequestSize < size then some (httpError w oversizedMsg 400)
      else none

/-! ## Request descriptor and its pool (src/unnamed/part_000) -/

/-- The internal request descriptor.  Reference-bearing fields (`Header`,
`Cookies`, `Uploads`, `Attributes`, `body`) are `Option`s whose `none` is
Go `nil`; zero values are the defaults. -/
structure Request where
  RemoteAddr : Str := []
  Protocol : Str := []
  Method : Str := []
  URI : Str := []
  Header : Option (List (Str × List Str)) := none
  Cookies : Option (List (Str × Str)) := none
  RawQuery : Str := []
  Parsed : Bool := false
  Uploads : Option (List Str) := none
  Attributes : Option (List (Str × Str)) := none
  body : Option Str := none
deriving DecidableEq, Repr

/-- The all-zero request descriptor. -/
def emptyRequest : Request := {}

/-- Inputs of translation taken from the live `*http.Request`. -/
structure HttpRequest where
  contentLengthHeader : Str
  rawQuery : Str
  remoteAddr : Str
  proto : Str
  method : Str
  headerList : List (Str × List Str)
deriving DecidableEq, Repr

/-- External collaborators of `getReq` whose sources are outside the
provided files: `FetchIP` (trusted-proxy-aware address extraction),
`URI` (request URI rendering) and `attributes.All`.  The claims hold for
every choice of these functions. -/
structure Env where
  fetchIP : Str → Str
  uriOf : HttpRequest → Str
  attributesAll : HttpRequest → List (Str × Str)

/-- Concrete environment used to instantiate witnesses. -/
def defaultEnv : Env := ⟨id, fun r => r.method, fun _ => []⟩

/-- Remove every occurrence of a character
(Go `strings.ReplaceAll(s, onechar, emptystring)`). -/
def removeChar (s : Str) (c : Char) : Str :=
  s.filter (fun x => !(x == c))

/-- The query sanitization of `getReq`: remove every line feed, then every
carriage return. -/
def sanitizeRawQuery (s : Str) : Str :=
  removeChar (removeChar s (Char.ofNat 10)) (Char.ofNat 13)

/-- Predicate for a character that is neither LF nor CR. -/
def notCRLF (c : Char) : Bool :=
  !(c == Char.ofNat 10 || c == Char.ofNat 13)

/-- Embedding of `Handler.getReq` (src/unnamed/part_000 lines 45-64):
populate a pooled descriptor from the live request.  `Uploads` is not
touched by `getReq`. -/
def getReq (env : Env) (r : HttpRequest) (pooled : Request) : Request :=
  { pooled with
    RawQuery := sanitizeRawQuery r.rawQuery
    RemoteAddr := env.fetchIP r.remoteAddr
    Protocol := r.proto
    Method := r.method
    URI := env.uriOf r
    Header := some r.headerList
    Cookies := some []
    Attributes := some (env.attributesAll r)
    Parsed := false
    body := none }

/-- Embedding of `Handler.putReq` (src/unnamed/part_000 lines 66-80):
reset every field of the descriptor before returning it to the pool. -/
def putReqObj (req : Request) : Request :=
  { req with
    RemoteAddr := []
    Protocol := []
    Method := []
    URI := []
    Header := none
    Cookies := none
    RawQuery := []
    Parsed := false
    Uploads := none
    Attributes := none
    body := none }

/-- The request pool, modelled as a stack of released descriptors.
`putReq` resets the object and pushes it. -/
def putReqPool (pool : List Request) (req : Request) : List Request :=
  putReqObj req :: pool

/-- Pool acquisition: pop the most recently released descriptor; `none`
stands for a fresh object produced by the pool allocator (outside this
model). -/
def getReqPool (pool : List Request) : Option Request × List Request :=
  match pool with
  | [] => (none, [])
  | r :: rest => (some r, rest)

/-! ## Wire payload and its pool -/

/-- A Go byte slice with the identity of its underlying allocation, so that
buffer reuse versus reallocation is observable. -/
structure Buf where
  alloc : Nat
  data : List Nat
deriving DecidableEq, Repr

/-- Codec tag of the wire payload. -/
inductive WireCodec where
  | json
  | proto
  | unset
deriving DecidableEq, Repr

/-- The wire payload handed to the worker executor; `none` buffers are Go
`nil` slices. -/
structure Payload where
  Codec : WireCodec := .unset
  Body : Option Buf := none
  Context : Option Buf := none
deriving DecidableEq, Repr

/-- Embedding of `Handler.putPld` (src/unnamed/part_000 lines 92-96 and
src/handler/handler_nightly.go lines 328-332): `pld.Body = nil` and
`pld.Context = nil` before the object returns to the pool. -/
def putPldObj (pld : Payload) : Payload :=
  { pld with Body := none, Context := none }

/-- A buffer emptied in length but kept on the same allocation: what a
retain-the-storage release (Go `buf[:0]`) would produce.  Used only to
state the spec's buffer-retention claim. -/
def emptyData (b : Buf) : Buf := ⟨b.alloc, []⟩

/-! ## Streamed fragments and the dispatcher loop -/

/-- One streamed response fragment.  `writeOk` is the state of the client
connection while this fragment is written: `false` means the write to the
socket fails. -/
structure Fragment where
  status : Nat
  headers : List (Str × Str)
  body : Str
  writeOk : Bool
deriving DecidableEq, Repr

/-- One event consumed by the dispatcher's `select` loop: a fragment from
the response channel or an error from the error channel.  The end of the
list is the close of the response channel. -/
inductive Ev where
  | frag (p : Fragment)
  | errE (e : RRError)
deriving DecidableEq, Repr

/-- Apply a list of header pairs to the writer with `Set` semantics. -/
def setHeaders (w : RespWriter) (hs : List (Str × Str)) : RespWriter :=
  hs.foldl (fun w kv => w.setHeader kv.fst kv.snd) w

/-- Modelled from the spec: the fragment writer `writeStream` is not among
the provided sources.  Per the spec's Response Writer contract, with
`once = false` it applies the fragment's status code and header set to the
live response and writes the body; with `once = true` it writes the body
only; a failing client connection yields an error. -/
def writeStream (w : RespWriter) (p : Fragment) (once : Bool) : Option RespWriter :=
  if p.writeOk then
    if once then some (w.write p.body)
    else some (((setHeaders w p.headers).writeHeader p.status).write p.body)
  else none

/-- The successful result of `writeStream`. -/
def writeStreamOk (w : RespWriter) (p : Fragment) (once : Bool) : RespWriter :=
  if once then w.write p.body
  else ((setHeaders w p.headers).writeHeader p.status).write p.body

theorem writeStream_of_writeOk (w : RespWriter) (p : Fragment) (once : Bool)
    (h : p.writeOk = true) :
    writeStream w p once = some (writeStreamOk w p once) := by
  unfold writeStream writeStreamOk
  rw [if_pos h]
  split <;> rfl

/-- The error passed to `handleError` when a fragment write fails; it is
outside the internal taxonomy. -/
def streamWriteErr : RRError := .other ("stream write error".toList)

/-- The fragment of an event, if any. -/
def fragOf : Ev → Option Fragment
  | .frag p => some p
  | .errE _ => none

/-- The fragments read and discarded by the post-error drain goroutine
(`for range resp`). -/
def drainFrags (evs : List Ev) : List Fragment :=
  evs.filterMap fragOf

/-- Observable outcome of the dispatcher loop. -/
structure LoopOut where
  w : RespWriter
  reqReleases : Nat
  pldReleases : Nat
  wsCalls : List (Fragment × Bool)
  drained : List Fragment
  normalEnd : Bool
deriving DecidableEq, Repr

/-- Embedding of the `select` loop of `ServeHTTP`
(src/handler/handler_nightly.go lines 173-213) over the linearized event
sequence: an error event releases the descriptor, classifies the error and
drains the remaining fragments; a fragment event calls the fragment writer
with the current `once` flag, setting `once = true` after a successful
write; exhaustion of the list is the close of the response channel, taking
the access-log path that releases payload and descriptor. -/
def dispatchLoop (h : Handler) (w : RespWriter) (once : Bool) : List Ev → LoopOut
  | [] => ⟨w, 1, 1, [], [], true⟩
  | .errE e :: rest => ⟨handleError h w e, 1, 0, [], drainFrags rest, false⟩
  | .frag p :: rest =>
    match writeStream w p once with
    | some w2 =>
      let o := dispatchLoop h w2 true rest
      { o with wsCalls := (p, once) :: o.wsCalls }
    | none => ⟨handleError h w streamWriteErr, 1, 0, [(p, once)], drainFrags rest, false⟩

/-! ## ServeHTTP -/

/-- Result of `request(r, req)` (request translation, source outside the
provided files): success, a broken-pipe error, or another error carrying
its message text. -/
inductive TranslateResult where
  | ok
  | epipe
  | err (msg : Str)
deriving DecidableEq, Repr

/-- Observable outcome of one `ServeHTTP` call.  `acquiredReq` is the
descriptor taken from the request pool (`none` when `ServeHTTP` returned
before `getReq`); `translated` records that `request(r, req)` was invoked;
`execInvoked` records that the payload was submitted to the worker pool
(`ExecStream`). -/
structure Output where
  w : RespWriter
  acquiredReq : Option Request
  translated : Bool
  execInvoked : Bool
  reqReleases : Nat
  pldReleases : Nat
  wsCalls : List (Fragment × Bool)
  drained : List Fragment
  normalEnd : Bool
deriving DecidableEq, Repr

/-- Embedding of `Handler.ServeHTTP` (src/handler/handler_nightly.go
lines 100-256): the Content-Length prelude, descriptor acquisition
(`getReq` receives a zeroed pooled object; see the pool-reset theorems),
request translation, payload forming, and the streaming dispatcher loop.
The behaviour of the external collaborators is supplied as arguments:
`tr` is the outcome of request translation, `pldErr` the error of
`req.Payload(pld)`, and `evs` the linearized fragment/error events of the
streamed execution. -/
def serveHTTP (h : Handler) (env : Env) (r : HttpRequest)
    (tr : TranslateResult) (pldErr : Option RRError) (evs : List Ev) : Output :=
  match checkMaxSize h RespWriter.init r.contentLengthHeader with
  | some w2 => ⟨w2, none, false, false, 0, 0, [], [], false⟩
  | none =>
    match tr with
    | .epipe =>
      ⟨RespWriter.init, some (getReq env r emptyRequest), true, false, 1, 0, [], [], false⟩
    | .err m =>
      ⟨httpError RespWriter.init (errWrap serveOp m) 500,
        some (getReq env r emptyRequest), true, false, 1, 0, [], [], false⟩
    | .ok =>
      match pldErr with
      | some e =>
        ⟨handleError h RespWriter.init e, some (getReq env r emptyRequest),
          true, false, 1, 1, [], [], false⟩
      | none =>
        ⟨(dispatchLoop h RespWriter.init false evs).w,
          some (getReq env r emptyRequest), true, true,
          (dispatchLoop h RespWriter.init false evs).reqReleases,
          (dispatchLoop h RespWriter.init false evs).pldReleases,
          (dispatchLoop h RespWriter.init false evs).wsCalls,
          (dispatchLoop h RespWriter.init false evs).drained,
          (dispatchLoop h RespWriter.init false evs).normalEnd⟩

/-! ## RPC control surface (src/rpc.go) -/

/-- The RPC request message, carrying the worker process identifier. -/
structure ReleaseRequestV1 where
  Pid : Int
deriving DecidableEq, Repr

/-- The RPC response message with its binary status field. -/
structure ReleaseResponseV1 where
  Ok : Nat
deriving DecidableEq, Repr

/-- Observable outcome of one RPC `Release` call: the response message, the
Go return value of the method, and the pids for which the pool's `Release`
was requested. -/
structure RpcResult where
  response : ReleaseResponseV1
  retErr : Option Str
  releaseCalls : List Int
deriving DecidableEq, Repr

/-- Embedding of `rpc.Release` (src/rpc.go lines 41-52): request the pool
release the worker with the given pid; `Ok` is 2 when the pool reports an
error and 1 otherwise; the method itself always returns a nil error.
`poolRelease` is the external pool's behaviour (`some` an error text on
failure). -/
def rpcRelease (poolRelease : Int → Option Str) (request : ReleaseRequestV1) :
    RpcResult :=
  match poolRelease request.Pid with
  | some _ => ⟨⟨2⟩, none, [request.Pid]⟩
  | none => ⟨⟨1⟩, none, [request.Pid]⟩

/-! ## Helper lemmas about the fragment writer and the loop -/

/-- Header-map image of folding `Set` over a list of pairs. -/
def applyHeaderList (m : List (Str × Str)) (hs : List (Str × Str)) : List (Str × Str) :=
  hs.foldl (fun m kv => insertHeader m kv.fst kv.snd) m

/-- Committed header set produced by the first fragment of a stream when
the writer starts fresh. -/
def firstFragHeaders (frags : List Fragment) : List (Str × Str) :=
  match frags with
  | [] => []
  | p :: _ => applyHeaderList [] p.headers

/-- Once pattern of the fragment-writer calls: `false` for the first call,
`true` for every later call. -/
def onceFlags (n : Nat) : List Bool :=
  match n with
  | 0 => []
  | n + 1 => false :: List.replicate n true

theorem setHeaders_body (hs : List (Str × Str)) (w : RespWriter) :
    (setHeaders w hs).body = w.body := by
  induction hs generalizing w with
  | nil => rfl
  | cons kv hs ih => simp [setHeaders, List.foldl] at ih ⊢; rw [ih, setHeader_body]

theorem setHeaders_committedStatus (hs : List (Str × Str)) (w : RespWriter) :
    (setHeaders w hs).committedStatus = w.committedStatus := by
  induction hs generalizing w with
  | nil => rfl
  | cons kv hs ih =>
    simp [setHeaders, List.foldl] at ih ⊢; rw [ih, setHeader_committedStatus]

theorem setHeaders_headerMap (hs : List (Str × Str)) (w : RespWriter) :
    (setHeaders w hs).headerMap = applyHeaderList w.headerMap hs := by
  induction hs generalizing w with
  | nil => rfl
  | cons kv hs ih =>
    simp [setHeaders, List.foldl, applyHeaderList] at ih ⊢
    rw [ih]
    rfl

theorem writeStreamOk_false_fresh (p : Fragment) (w : RespWriter)
    (hcs : w.committedStatus = none) :
    (writeStreamOk w p false).committedStatus = some p.status
    ∧ (writeStreamOk w p false).committedHeaders = applyHeaderList w.headerMap p.headers
    ∧ (writeStreamOk w p false).body = w.body ++ p.body := by
  unfold writeStreamOk
  simp only [if_neg Bool.false_ne_true, Bool.false_eq_true, if_false]
  have h1 : (setHeaders w p.headers).committedStatus = none := by
    rw [setHeaders_committedStatus, hcs]
  rw [writeHeader_of_uncommitted _ _ h1]
  refine ⟨?_, ?_, ?_⟩
  · rw [write_committedStatus_of_committed _ _ p.status rfl]
  · rw [write_committedHeaders_of_committed _ _ p.status rfl]
    exact setHeaders_headerMap p.headers w
  · rw [write_body]
    simp [setHeaders_body]

/-- Loop invariant after the first fragment: with the status already
committed and every remaining fragment writable, the loop forwards every
fragment (once flag `true`), appends exactly their bytes, releases the
descriptor once on the terminal error, and drains the remainder. -/
theorem dispatchLoop_true_of_frags (h : Handler) (e : RRError) (rest : List Ev)
    (frags : List Fragment) (w : RespWriter) (s : Nat)
    (hok : frags.all Fragment.writeOk = true)
    (hcs : w.committedStatus = some s) :
    (dispatchLoop h w true (frags.map Ev.frag ++ Ev.errE e :: rest)).wsCalls.map Prod.fst = frags
    ∧ (dispatchLoop h w true (frags.map Ev.frag ++ Ev.errE e :: rest)).wsCalls.map Prod.snd =
        List.replicate frags.length true
    ∧ (dispatchLoop h w true (frags.map Ev.frag ++ Ev.errE e :: rest)).w.body =
        w.body ++ (frags.map Fragment.body).flatten
    ∧ (dispatchLoop h w true (frags.map Ev.frag ++ Ev.errE e :: rest)).w.committedStatus = some s
    ∧ (dispatchLoop h w true (frags.map Ev.frag ++ Ev.errE e :: rest)).w.committedHeaders =
        w.committedHeaders
    ∧ (dispatchLoop h w true (frags.map Ev.frag ++ Ev.errE e :: rest)).reqReleases = 1
    ∧ (dispatchLoop h w true (frags.map Ev.frag ++ Ev.errE e :: rest)).pldReleases = 0
    ∧ (dispatchLoop h w true (frags.map Ev.frag ++ Ev.errE e :: rest)).drained = drainFrags rest
    ∧ (dispatchLoop h w true (frags.map Ev.frag ++ Ev.errE e :: rest)).normalEnd = false := by
  induction frags generalizing w with
  | nil =>
    refine ⟨rfl, rfl, ?_, ?_, ?_, rfl, rfl, rfl, rfl⟩
    · show (handleError h w e).body = w.body ++ ([] : List Str).flatten
      rw [handleError_body]
      simp
    · exact handleError_committedStatus_of_committed h w e s hcs
    · exact handleError_committedHeaders_of_committed h w e s hcs
  | cons p frags ih =>
    rw [List.all_cons, Bool.and_eq_true] at hok
    obtain ⟨hp, hfr⟩ := hok
    have hw2cs : (w.write p.body).committedStatus = some s :=
      write_committedStatus_of_committed w p.body s hcs
    obtain ⟨i1, i2, i3, i4, i5, i6, i7, i8, i9⟩ := ih (w.write p.body) hfr hw2cs
    have hwso : writeStreamOk w p true = w.write p.body := rfl
    simp only [List.map_cons, List.cons_append, dispatchLoop,
      writeStream_of_writeOk w p true hp, hwso, List.append_eq]
    refine ⟨?_, ?_, ?_, ?_, ?_, ?_, ?_, ?_, ?_⟩
    · simpa using i1
    · simpa [List.replicate_succ] using i2
    · rw [write_body] at i3
      simpa [List.flatten_cons, List.append_assoc] using i3
    · exact i4
    · rw [write_committedHeaders_of_committed w p.body s hcs] at i5
      exact i5
    · exact i6
    · exact i7
    · exact i8
    · exact i9

/-- The fragment-writer once flags are all `true` in the `once = true`
state of the loop, for every event sequence. -/
theorem dispatchLoop_true_flags (h : Handler) (evs : List Ev) (w : RespWriter) :
    (dispatchLoop h w true evs).wsCalls.map Prod.snd =
      List.replicate (dispatchLoop h w true evs).wsCalls.length true := by
  induction evs generalizing w with
  | nil => rfl
  | cons ev rest ih =>
    cases ev with
    | errE e => rfl
    | frag p =>
      simp only [dispatchLoop]
      cases hw : writeStream w p true with
      | none => rfl
      | some w2 =>
        simp only [List.map_cons, List.length_cons]
        rw [ih w2]
        rfl

/-- Entered with `once = false`, the loop passes `false` exactly to its
first fragment-writer call and `true` to every later one. -/
theorem dispatchLoop_false_flags (h : Handler) (evs : List Ev) (w : RespWriter) :
    (dispatchLoop h w false evs).wsCalls.map Prod.snd =
      onceFlags (dispatchLoop h w false evs).wsCalls.length := by
  cases evs with
  | nil => rfl
  | cons ev rest =>
    cases ev with
    | errE e => rfl
    | frag p =>
      simp only [dispatchLoop]
      cases hw : writeStream w p false with
      | none => rfl
      | some w2 =>
        simp only [List.map_cons, List.length_cons]
        rw [dispatchLoop_true_flags h rest w2]
        rfl

/-- Branch lemma: an early return of the size prelude is the whole
observable outcome of `ServeHTTP`. -/
theorem serveHTTP_early (h : Handler) (env : Env) (r : HttpRequest)
    (tr : TranslateResult) (pldErr : Option RRError) (evs : List Ev) (w2 : RespWriter)
    (hck : checkMaxSize h RespWriter.init r.contentLengthHeader = some w2) :
    serveHTTP h env r tr pldErr evs = ⟨w2, none, false, false, 0, 0, [], [], false⟩ := by
  unfold serveHTTP
  rw [hck]

/-- Branch lemma: broken-pipe translation failure. -/
theorem serveHTTP_epipe (h : Handler) (env : Env) (r : HttpRequest)
    (pldErr : Option RRError) (evs : List Ev)
    (hck : checkMaxSize h RespWriter.init r.contentLengthHeader = none) :
    serveHTTP h env r TranslateResult.epipe pldErr evs =
      ⟨RespWriter.init, some (getReq env r emptyRequest), true, false, 1, 0, [], [], false⟩ := by
  unfold serveHTTP
  rw [hck]

/-- Branch lemma: non-pipe translation failure. -/
theorem serveHTTP_trErr (h : Handler) (env : Env) (r : HttpRequest)
    (pldErr : Option RRError) (evs : List Ev) (m : Str)
    (hck : checkMaxSize h RespWriter.init r.contentLengthHeader = none) :
    serveHTTP h env r (TranslateResult.err m) pldErr evs =
      ⟨httpError RespWriter.init (errWrap serveOp m) 500,
        some (getReq env r emptyRequest), true, false, 1, 0, [], [], false⟩ := by
  unfold serveHTTP
  rw [hck]

/-- Branch lemma: payload-forming failure. -/
theorem serveHTTP_pldErr (h : Handler) (env : Env) (r : HttpRequest)
    (evs : List Ev) (e : RRError)
    (hck : checkMaxSize h RespWriter.init r.contentLengthHeader = none) :
    serveHTTP h env r TranslateResult.ok (some e) evs =
      ⟨handleError h RespWriter.init e, some (getReq env r emptyRequest),
        true, false, 1, 1, [], [], false⟩ := by
  unfold serveHTTP
  rw [hck]

/-- Branch lemma: the streaming path delegates to the dispatcher loop. -/
theorem serveHTTP_ok_loop (h : Handler) (env : Env) (r : HttpRequest) (evs : List Ev)
    (hck : checkMaxSize h RespWriter.init r.contentLengthHeader = none) :
    serveHTTP h env r TranslateResult.ok none evs =
      ⟨(dispatchLoop h RespWriter.init false evs).w,
        some (getReq env r emptyRequest), true, true,
        (dispatchLoop h RespWriter.init false evs).reqReleases,
        (dispatchLoop h RespWriter.init false evs).pldReleases,
        (dispatchLoop h RespWriter.init false evs).wsCalls,
        (dispatchLoop h RespWriter.init false evs).drained,
        (dispatchLoop h RespWriter.init false evs).normalEnd⟩ := by
  unfold serveHTTP
  rw [hck]

/-- Entry lemma of the loop: a fresh writer, `once = false`, `N` writable
fragments, then an error.  Exactly the fragments are forwarded and written;
the first fragment's status and header set are the committed ones. -/
theorem dispatchLoop_false_of_frags (h : Handler) (e : RRError) (rest : List Ev)
    (frags : List Fragment)
    (hok : frags.all Fragment.writeOk = true) :
    (dispatchLoop h RespWriter.init false (frags.map Ev.frag ++ Ev.errE e :: rest)).wsCalls.map Prod.fst = frags
    ∧ (dispatchLoop h RespWriter.init false (frags.map Ev.frag ++ Ev.errE e :: rest)).w.body =
        (frags.map Fragment.body).flatten
    ∧ (dispatchLoop h RespWriter.init false (frags.map Ev.frag ++ Ev.errE e :: rest)).reqReleases = 1
    ∧ (dispatchLoop h RespWriter.init false (frags.map Ev.frag ++ Ev.errE e :: rest)).pldReleases = 0
    ∧ (dispatchLoop h RespWriter.init false (frags.map Ev.frag ++ Ev.errE e :: rest)).drained =
        drainFrags rest
    ∧ (dispatchLoop h RespWriter.init false (frags.map Ev.frag ++ Ev.errE e :: rest)).normalEnd = false
    ∧ (frags ≠ [] →
        (dispatchLoop h RespWriter.init false (frags.map Ev.frag ++ Ev.errE e :: rest)).w.committedStatus =
          (frags.map Fragment.status).head?
        ∧ (dispatchLoop h RespWriter.init false (frags.map Ev.frag ++ Ev.errE e :: rest)).w.committedHeaders =
            firstFragHeaders frags) := by
  cases frags with
  | nil =>
    refine ⟨rfl, ?_, rfl, rfl, rfl, rfl, ?_⟩
    · show (handleError h RespWriter.init e).body = _
      rw [handleError_body]
      rfl
    · intro hne
      exact absurd rfl hne
  | cons p tail =>
    rw [List.all_cons, Bool.and_eq_true] at hok
    obtain ⟨hp, htail⟩ := hok
    obtain ⟨hcs1, hch1, hb1⟩ := writeStreamOk_false_fresh p RespWriter.init rfl
    obtain ⟨i1, i2, i3, i4, i5, i6, i7, i8, i9⟩ :=
      dispatchLoop_true_of_frags h e rest tail (writeStreamOk RespWriter.init p false)
        p.status htail hcs1
    simp only [List.map_cons, List.cons_append, dispatchLoop,
      writeStream_of_writeOk RespWriter.init p false hp, List.append_eq]
    refine ⟨?_, ?_, ?_, ?_, ?_, ?_, ?_⟩
    · simpa using i1
    · rw [hb1] at i3
      simpa [List.flatten_cons, RespWriter.init] using i3
    · exact i6
    · exact i7
    · exact i8
    · exact i9
    · intro _
      refine ⟨?_, ?_⟩
      · rw [i4]
        rfl
      · rw [i5, hch1]
        rfl

/-! ## Witness fixtures -/

/-- Witness handler: `NewHandler` with a 1 MB ceiling, internal code 500,
access logs off. -/
def hW : Handler := NewHandler 1 500 false

/-- Witness request carrying a given Content-Length header string. -/
def reqCL (cl : Str) : HttpRequest := ⟨cl, [], [], [], [], []⟩

/-- Witness request without a Content-Length header. -/
def reqPlain : HttpRequest := ⟨[], "a=1".toList, [], [], [], []⟩

/-- Witness fragment with a header and some body bytes. -/
def fragA : Fragment := ⟨201, [("X-A".toList, "1".toList)], "hello ".toList, true⟩

/-- Witness fragment with body bytes only. -/
def fragB : Fragment := ⟨200, [], "world".toList, true⟩

/-- Witness writer with a committed status. -/
def wC : RespWriter := ⟨[], some 200, [], "x".toList⟩

/-- Witness pool-release behaviour that always succeeds. -/
def releaseOkFn : Int → Option Str := fun _ => none

/-- Internal text of the witness translation failure. -/
def boomMsg : Str := "boom".toList

/-! ## Claim theorems -/

/-- C1: for every inbound request, when the configured maximum request size
is non-zero and the Content-Length header parses to a value strictly
greater than that maximum, `ServeHTTP` responds with HTTP status 400 and
returns before the request is translated or any worker is invoked: no
descriptor is acquired, translation does not run, no payload is submitted
to the pool, and the fragment writer is never called. -/
theorem c1_oversized_request_400 (h : Handler) (env : Env) (r : HttpRequest)
    (tr : TranslateResult) (pldErr : Option RRError) (evs : List Ev) (size : Int)
    (hu : h.maxRequestSize < 2 ^ 64)
    (hmax : h.maxRequestSize ≠ 0)
    (hparse : parseInt64 r.contentLengthHeader = some size)
    (hgt : (h.maxRequestSize : Int) < size) :
    (serveHTTP h env r tr pldErr evs).w.committedStatus = some 400
    ∧ (serveHTTP h env r tr pldErr evs).acquiredReq = none
    ∧ (serveHTTP h env r tr pldErr evs).translated = false
    ∧ (serveHTTP h env r tr pldErr evs).execInvoked = false
    ∧ (serveHTTP h env r tr pldErr evs).wsCalls = [] := by
  have hcl : r.contentLengthHeader ≠ [] := by
    intro hh
    rw [hh] at hparse
    cases hparse
  have hcond : toInt64 h.maxRequestSize < size := by
    by_cases hlt : h.maxRequestSize < 2 ^ 63
    · rw [toInt64_of_lt _ hlt]
      exact hgt
    · exfalso
      have hle := parseInt64_le _ _ hparse
      have h63 : (2 : Int) ^ 63 ≤ (h.maxRequestSize : Int) := by
        have hn : 2 ^ 63 ≤ h.maxRequestSize := Nat.le_of_not_lt hlt
        exact_mod_cast hn
      unfold int64Max at hle
      omega
  have hck : checkMaxSize h RespWriter.init r.contentLengthHeader =
      some (httpError RespWriter.init oversizedMsg 400) := by
    simp only [checkMaxSize, if_neg hmax, if_neg hcl, hparse, if_pos hcond]
  rw [serveHTTP_early h env r tr pldErr evs _ hck]
  exact ⟨rfl, rfl, rfl, rfl, rfl⟩

/-- Witness for C1 at a concrete oversized request: a 1 MB handler and a
Content-Length of 1048577 bytes. -/
theorem c1_witness :
    hW.maxRequestSize < 2 ^ 64
    ∧ hW.maxRequestSize ≠ 0
    ∧ parseInt64 (reqCL ("1048577".toList)).contentLengthHeader = some 1048577
    ∧ (hW.maxRequestSize : Int) < 1048577
    ∧ ((serveHTTP hW defaultEnv (reqCL ("1048577".toList)) TranslateResult.ok none []).w.committedStatus = some 400
       ∧ (serveHTTP hW defaultEnv (reqCL ("1048577".toList)) TranslateResult.ok none []).acquiredReq = none
       ∧ (serveHTTP hW defaultEnv (reqCL ("1048577".toList)) TranslateResult.ok none []).translated = false
       ∧ (serveHTTP hW defaultEnv (reqCL ("1048577".toList)) TranslateResult.ok none []).execInvoked = false
       ∧ (serveHTTP hW defaultEnv (reqCL ("1048577".toList)) TranslateResult.ok none []).wsCalls = []) :=
  ⟨by decide, by decide, by decide, by decide,
    c1_oversized_request_400 hW defaultEnv (reqCL ("1048577".toList))
      TranslateResult.ok none [] 1048577 (by decide) (by decide) (by decide) (by decide)⟩

/-- C10: when the configured maximum request size is non-zero and a
Content-Length header is present but does not parse as a decimal integer,
`ServeHTTP` responds with HTTP status 500 (and an empty error line as
body) and returns immediately: no descriptor is acquired, no translation,
no worker invocation. -/
theorem c10_unparseable_length_500 (h : Handler) (env : Env) (r : HttpRequest)
    (tr : TranslateResult) (pldErr : Option RRError) (evs : List Ev)
    (hmax : h.maxRequestSize ≠ 0)
    (hcl : r.contentLengthHeader ≠ [])
    (hparse : parseInt64 r.contentLengthHeader = none) :
    (serveHTTP h env r tr pldErr evs).w.committedStatus = some 500
    ∧ (serveHTTP h env r tr pldErr evs).w.body = [Char.ofNat 10]
    ∧ (serveHTTP h env r tr pldErr evs).acquiredReq = none
    ∧ (serveHTTP h env r tr pldErr evs).translated = false
    ∧ (serveHTTP h env r tr pldErr evs).execInvoked = false := by
  have hck : checkMaxSize h RespWriter.init r.contentLengthHeader =
      some (httpError RespWriter.init [] 500) := by
    simp only [checkMaxSize, if_neg hmax, if_neg hcl, hparse]
  rw [serveHTTP_early h env r tr pldErr evs _ hck]
  exact ⟨rfl, rfl, rfl, rfl, rfl⟩

/-- Witness for C10 at the concrete header value `12a`. -/
theorem c10_witness :
    hW.maxRequestSize ≠ 0
    ∧ (reqCL ("12a".toList)).contentLengthHeader ≠ []
    ∧ parseInt64 (reqCL ("12a".toList)).contentLengthHeader = none
    ∧ ((serveHTTP hW defaultEnv (reqCL ("12a".toList)) TranslateResult.ok none []).w.committedStatus = some 500
       ∧ (serveHTTP hW defaultEnv (reqCL ("12a".toList)) TranslateResult.ok none []).w.body = [Char.ofNat 10]
       ∧ (serveHTTP hW defaultEnv (reqCL ("12a".toList)) TranslateResult.ok none []).acquiredReq = none
       ∧ (serveHTTP hW defaultEnv (reqCL ("12a".toList)) TranslateResult.ok none []).translated = false
       ∧ (serveHTTP hW defaultEnv (reqCL ("12a".toList)) TranslateResult.ok none []).execInvoked = false) :=
  ⟨by decide, by decide, by decide,
    c10_unparseable_length_500 hW defaultEnv (reqCL ("12a".toList))
      TranslateResult.ok none [] (by decide) (by decide) (by decide)⟩

/-- C2: when the executor delivers an error on the error channel after `N`
writable fragments, the dispatcher forwards exactly those fragments to the
fragment writer, the client body holds exactly their bytes, the committed
status and header set are those of the first fragment (when `N ≥ 1`), the
descriptor is released exactly once, no normal completion is logged, and
the remaining fragments are drained to completion. -/
theorem c2_error_after_fragments (h : Handler) (env : Env) (r : HttpRequest)
    (frags : List Fragment) (e : RRError) (rest : List Ev)
    (hck : checkMaxSize h RespWriter.init r.contentLengthHeader = none)
    (hok : frags.all Fragment.writeOk = true) :
    (serveHTTP h env r TranslateResult.ok none (frags.map Ev.frag ++ Ev.errE e :: rest)).wsCalls.map Prod.fst = frags
    ∧ (serveHTTP h env r TranslateResult.ok none (frags.map Ev.frag ++ Ev.errE e :: rest)).w.body =
        (frags.map Fragment.body).flatten
    ∧ (serveHTTP h env r TranslateResult.ok none (frags.map Ev.frag ++ Ev.errE e :: rest)).reqReleases = 1
    ∧ (serveHTTP h env r TranslateResult.ok none (frags.map Ev.frag ++ Ev.errE e :: rest)).drained =
        drainFrags rest
    ∧ (serveHTTP h env r TranslateResult.ok none (frags.map Ev.frag ++ Ev.errE e :: rest)).normalEnd = false
    ∧ (frags ≠ [] →
        (serveHTTP h env r TranslateResult.ok none (frags.map Ev.frag ++ Ev.errE e :: rest)).w.committedStatus =
          (frags.map Fragment.status).head?
        ∧ (serveHTTP h env r TranslateResult.ok none (frags.map Ev.frag ++ Ev.errE e :: rest)).w.committedHeaders =
            firstFragHeaders frags) := by
  rw [serveHTTP_ok_loop h env r (frags.map Ev.frag ++ Ev.errE e :: rest) hck]
  obtain ⟨j1, j2, j3, j4, j5, j6, j7⟩ := dispatchLoop_false_of_frags h e rest frags hok
  exact ⟨j1, j2, j3, j5, j6, j7⟩

/-- Witness for C2: one forwarded fragment, then a soft-job error, with one
fragment left pending for the drain. -/
theorem c2_witness :
    checkMaxSize hW RespWriter.init reqPlain.contentLengthHeader = none
    ∧ ([fragA].all Fragment.writeOk = true)
    ∧ ((serveHTTP hW defaultEnv reqPlain TranslateResult.ok none ([fragA].map Ev.frag ++ Ev.errE RRError.softJob :: [Ev.frag fragB])).wsCalls.map Prod.fst = [fragA]
       ∧ (serveHTTP hW defaultEnv reqPlain TranslateResult.ok none ([fragA].map Ev.frag ++ Ev.errE RRError.softJob :: [Ev.frag fragB])).w.body =
           ([fragA].map Fragment.body).flatten
       ∧ (serveHTTP hW defaultEnv reqPlain TranslateResult.ok none ([fragA].map Ev.frag ++ Ev.errE RRError.softJob :: [Ev.frag fragB])).reqReleases = 1
       ∧ (serveHTTP hW defaultEnv reqPlain TranslateResult.ok none ([fragA].map Ev.frag ++ Ev.errE RRError.softJob :: [Ev.frag fragB])).drained =
           drainFrags [Ev.frag fragB]
       ∧ (serveHTTP hW defaultEnv reqPlain TranslateResult.ok none ([fragA].map Ev.frag ++ Ev.errE RRError.softJob :: [Ev.frag fragB])).normalEnd = false
       ∧ ([fragA] ≠ ([] : List Fragment) →
           (serveHTTP hW defaultEnv reqPlain TranslateResult.ok none ([fragA].map Ev.frag ++ Ev.errE RRError.softJob :: [Ev.frag fragB])).w.committedStatus =
             ([fragA].map Fragment.status).head?
           ∧ (serveHTTP hW defaultEnv reqPlain TranslateResult.ok none ([fragA].map Ev.frag ++ Ev.errE RRError.softJob :: [Ev.frag fragB])).w.committedHeaders =
               firstFragHeaders [fragA])) :=
  ⟨by decide, by decide,
    c2_error_after_fragments hW defaultEnv reqPlain [fragA] RRError.softJob
      [Ev.frag fragB] (by decide) (by decide)⟩

/-- C3: on every streamed execution the dispatcher passes `once = false` to
the fragment writer for the first fragment and `once = true` for every
subsequent fragment; and with `once = true` the fragment writer leaves the
committed status and committed header set untouched, so later fragments
never resend status or headers. -/
theorem c3_headers_once (h : Handler) (env : Env) (r : HttpRequest)
    (tr : TranslateResult) (pldErr : Option RRError) (evs : List Ev)
    (w : RespWriter) (p : Fragment) (s : Nat)
    (hcs : w.committedStatus = some s) (hok : p.writeOk = true) :
    (serveHTTP h env r tr pldErr evs).wsCalls.map Prod.snd =
      onceFlags (serveHTTP h env r tr pldErr evs).wsCalls.length
    ∧ writeStream w p true = some (w.write p.body)
    ∧ (w.write p.body).committedStatus = some s
    ∧ (w.write p.body).committedHeaders = w.committedHeaders := by
  refine ⟨?_, ?_, ?_, ?_⟩
  · cases hck : checkMaxSize h RespWriter.init r.contentLengthHeader with
    | some w2 =>
      rw [serveHTTP_early h env r tr pldErr evs w2 hck]
      rfl
    | none =>
      cases tr with
      | epipe =>
        rw [serveHTTP_epipe h env r pldErr evs hck]
        rfl
      | err m =>
        rw [serveHTTP_trErr h env r pldErr evs m hck]
        rfl
      | ok =>
        cases pldErr with
        | some e2 =>
          rw [serveHTTP_pldErr h env r evs e2 hck]
          rfl
        | none =>
          rw [serveHTTP_ok_loop h env r evs hck]
          exact dispatchLoop_false_flags h evs RespWriter.init
  · rw [writeStream_of_writeOk w p true hok]
    rfl
  · exact write_committedStatus_of_committed w p.body s hcs
  · exact write_committedHeaders_of_committed w p.body s hcs

/-- Witness for C3 on a two-fragment stream and a committed writer. -/
theorem c3_witness :
    wC.committedStatus = some 200
    ∧ fragB.writeOk = true
    ∧ ((serveHTTP hW defaultEnv reqPlain TranslateResult.ok none [Ev.frag fragA, Ev.frag fragB]).wsCalls.map Prod.snd =
         onceFlags (serveHTTP hW defaultEnv reqPlain TranslateResult.ok none [Ev.frag fragA, Ev.frag fragB]).wsCalls.length
       ∧ writeStream wC fragB true = some (wC.write fragB.body)
       ∧ (wC.write fragB.body).committedStatus = some 200
       ∧ (wC.write fragB.body).committedHeaders = wC.committedHeaders) :=
  ⟨by decide, by decide,
    c3_headers_once hW defaultEnv reqPlain TranslateResult.ok none
      [Ev.frag fragA, Ev.frag fragB] wC fragB 200 (by decide) (by decide)⟩

/-- C4: the saturation header `No-Workers: true` is set if and only if the
classified error is the no-free-worker condition, in which case the
configured internal-error status is written; every error of the internal
taxonomy also gets the configured internal-error status, without that
header. -/
theorem c4_saturation_header (h : Handler) (w : RespWriter) (e : RRError)
    (hcs : w.committedStatus = none)
    (hhw : hasNoWorkersHeader w = false) :
    (hasNoWorkersHeader (handleError h w e) = true ↔ e = RRError.noFreeWorkers)
    ∧ (e = RRError.noFreeWorkers →
        (handleError h w e).committedStatus = some h.internalHTTPCode)
    ∧ (inTaxonomy e = true →
        (handleError h w e).committedStatus = some h.internalHTTPCode) := by
  cases e <;>
    simp_all [handleError, inTaxonomy, hasNoWorkersHeader, RespWriter.setHeader,
      RespWriter.writeHeader, lookupHeader, insertHeader]

/-- Witness for C4 at the no-free-worker error on a fresh writer. -/
theorem c4_witness :
    RespWriter.init.committedStatus = none
    ∧ hasNoWorkersHeader RespWriter.init = false
    ∧ ((hasNoWorkersHeader (handleError hW RespWriter.init RRError.noFreeWorkers) = true ↔
          RRError.noFreeWorkers = RRError.noFreeWorkers)
       ∧ (RRError.noFreeWorkers = RRError.noFreeWorkers →
           (handleError hW RespWriter.init RRError.noFreeWorkers).committedStatus =
             some hW.internalHTTPCode)
       ∧ (inTaxonomy RRError.noFreeWorkers = true →
           (handleError hW RespWriter.init RRError.noFreeWorkers).committedStatus =
             some hW.internalHTTPCode)) :=
  ⟨by decide, by decide,
    c4_saturation_header hW RespWriter.init RRError.noFreeWorkers (by decide) (by decide)⟩

/-- C5 counterexample: a failing request (translation failure, HTTP 500)
whose client-visible body embeds the internal error text, refuting the
claim that the client-visible output of every failing request is only a
status code. -/
theorem c5_counterexample :
    (serveHTTP hW defaultEnv reqPlain (TranslateResult.err boomMsg) none []).w.committedStatus = some 500
    ∧ (serveHTTP hW defaultEnv reqPlain (TranslateResult.err boomMsg) none []).w.body =
        errWrap serveOp boomMsg ++ [Char.ofNat 10]
    ∧ (serveHTTP hW defaultEnv reqPlain (TranslateResult.err boomMsg) none []).w.body ≠ []
    ∧ List.IsInfix boomMsg ((serveHTTP hW defaultEnv reqPlain (TranslateResult.err boomMsg) none []).w.body) := by
  refine ⟨by decide, by decide, by decide, ?_⟩
  exact ⟨"serve_http: ".toList, [Char.ofNat 10], by decide⟩

/-- C5 (amended): failures routed through the error classifier leak
nothing: `handleError` never appends body bytes, changes no header for any
non-saturation error, and a payload-forming failure yields an empty
response body. -/
theorem c5_amended_no_internal_leak (h : Handler) (w : RespWriter) (e e2 : RRError)
    (env : Env) (r : HttpRequest) (evs : List Ev)
    (hck : checkMaxSize h RespWriter.init r.contentLengthHeader = none)
    (hne : e ≠ RRError.noFreeWorkers) :
    (handleError h w e).body = w.body
    ∧ (handleError h w e).headerMap = w.headerMap
    ∧ (handleError h w e2).body = w.body
    ∧ (serveHTTP h env r TranslateResult.ok (some e2) evs).w.body = [] := by
  refine ⟨handleError_body h w e, ?_, handleError_body h w e2, ?_⟩
  · unfold handleError
    rw [if_neg hne]
    split
    · exact writeHeader_headerMap w _
    · rfl
  · rw [serveHTTP_pldErr h env r evs e2 hck]
    show (handleError h RespWriter.init e2).body = []
    rw [handleError_body]
    rfl

/-- Witness for the amended C5 on a soft-job error and a no-free-worker
payload failure. -/
theorem c5_amended_witness :
    checkMaxSize hW RespWriter.init reqPlain.contentLengthHeader = none
    ∧ RRError.softJob ≠ RRError.noFreeWorkers
    ∧ ((handleError hW wC RRError.softJob).body = wC.body
       ∧ (handleError hW wC RRError.softJob).headerMap = wC.headerMap
       ∧ (handleError hW wC RRError.noFreeWorkers).body = wC.body
       ∧ (serveHTTP hW defaultEnv reqPlain TranslateResult.ok (some RRError.noFreeWorkers) []).w.body = []) :=
  ⟨by decide, by decide,
    c5_amended_no_internal_leak hW wC RRError.softJob RRError.noFreeWorkers
      defaultEnv reqPlain [] (by decide) (by decide)⟩

/-- C6: releasing a request descriptor resets every field to its zero
value and is idempotent; an object obtained from the pool immediately
after one or two releases is the all-zero descriptor. -/
theorem c6_putReq_reset_idempotent (r : Request) (pool : List Request) :
    putReqObj r = emptyRequest
    ∧ putReqObj (putReqObj r) = putReqObj r
    ∧ (getReqPool (putReqPool pool r)).fst = some emptyRequest
    ∧ (getReqPool (putReqPool (putReqPool pool r) (putReqObj r))).fst = some emptyRequest
    ∧ (putReqObj r).RemoteAddr = []
    ∧ (putReqObj r).Protocol = []
    ∧ (putReqObj r).Method = []
    ∧ (putReqObj r).URI = []
    ∧ (putReqObj r).Header = none
    ∧ (putReqObj r).Cookies = none
    ∧ (putReqObj r).RawQuery = []
    ∧ (putReqObj r).Parsed = false
    ∧ (putReqObj r).Uploads = none
    ∧ (putReqObj r).Attributes = none
    ∧ (putReqObj r).body = none :=
  ⟨rfl, rfl, rfl, rfl, rfl, rfl, rfl, rfl, rfl, rfl, rfl, rfl, rfl, rfl, rfl⟩

/-- Concrete payload for the C7 counterexample: non-empty body and context
buffers on distinct allocations. -/
def pldC7 : Payload := ⟨WireCodec.proto, some ⟨1, [7, 8]⟩, some ⟨2, [9]⟩⟩

/-- C7 counterexample: releasing a payload does not retain its buffers
emptied in place; `putPld` drops them, refuting the claim that the
underlying storage is kept. -/
theorem c7_counterexample :
    ¬ ((putPldObj pldC7).Body = Option.map emptyData pldC7.Body
       ∧ (putPldObj pldC7).Context = Option.map emptyData pldC7.Context) := by
  decide

/-- C7 (amended): on release the payload's body and context buffer
references are set to nil (dropped), so the next acquisition cannot reuse
them; the pool allocator provides fresh buffers instead. -/
theorem c7_amended_buffers_dropped (pld : Payload) :
    (putPldObj pld).Body = none ∧ (putPldObj pld).Context = none :=
  ⟨rfl, rfl⟩

/-- Auxiliary: the query sanitization equals a single filter keeping only
characters that are neither LF nor CR. -/
theorem sanitizeRawQuery_eq_filter (s : Str) :
    sanitizeRawQuery s = s.filter notCRLF := by
  unfold sanitizeRawQuery removeChar
  induction s with
  | nil => rfl
  | cons c cs ih =>
    by_cases h10 : (c == Char.ofNat 10) = true
    · have hn : notCRLF c = false := by simp [notCRLF, h10]
      simp [List.filter_cons, h10, hn, ih]
    · by_cases h13 : (c == Char.ofNat 13) = true
      · have hn : notCRLF c = false := by simp [notCRLF, h13]
        simp [List.filter_cons, h10, h13, hn, ih]
      · have hn : notCRLF c = true := by
          simp only [Bool.not_eq_true] at h10 h13
          simp [notCRLF, h10, h13]
        simp only [Bool.not_eq_true] at h10 h13
        simp [List.filter_cons, h10, h13, hn, ih]

/-- C8: the raw query stored in the descriptor equals the request's raw
query with every CR and LF removed, hence contains neither; the value is
sanitized before the descriptor is populated. -/
theorem c8_query_sanitized (env : Env) (r : HttpRequest) (pooled : Request) :
    (getReq env r pooled).RawQuery = sanitizeRawQuery r.rawQuery
    ∧ sanitizeRawQuery r.rawQuery = r.rawQuery.filter notCRLF
    ∧ Char.ofNat 10 ∉ (getReq env r pooled).RawQuery
    ∧ Char.ofNat 13 ∉ (getReq env r pooled).RawQuery := by
  refine ⟨rfl, sanitizeRawQuery_eq_filter r.rawQuery, ?_, ?_⟩
  · show Char.ofNat 10 ∉ sanitizeRawQuery r.rawQuery
    rw [sanitizeRawQuery_eq_filter]
    intro hmem
    rw [List.mem_filter] at hmem
    exact absurd hmem.2 (by decide)
  · show Char.ofNat 13 ∉ sanitizeRawQuery r.rawQuery
    rw [sanitizeRawQuery_eq_filter]
    intro hmem
    rw [List.mem_filter] at hmem
    exact absurd hmem.2 (by decide)

/-- Witness request whose raw query carries CR and LF characters. -/
def reqCRLF : HttpRequest :=
  ⟨[], "a=1".toList ++ [Char.ofNat 13, Char.ofNat 10] ++ "b=2".toList, [], [], [], []⟩

/-- Witness for C8 on a query containing a CRLF pair. -/
theorem c8_witness :
    (getReq defaultEnv reqCRLF emptyRequest).RawQuery = sanitizeRawQuery reqCRLF.rawQuery
    ∧ sanitizeRawQuery reqCRLF.rawQuery = reqCRLF.rawQuery.filter notCRLF
    ∧ Char.ofNat 10 ∉ (getReq defaultEnv reqCRLF emptyRequest).RawQuery
    ∧ Char.ofNat 13 ∉ (getReq defaultEnv reqCRLF emptyRequest).RawQuery :=
  c8_query_sanitized defaultEnv reqCRLF emptyRequest

/-- C9: the RPC `Release` call asks the pool to release exactly the worker
of the request's pid, sets the binary status to 1 on pool success and 2 on
pool failure, and itself always returns a nil error. -/
theorem c9_rpc_release (poolRelease : Int → Option Str) (request : ReleaseRequestV1) :
    (rpcRelease poolRelease request).releaseCalls = [request.Pid]
    ∧ (rpcRelease poolRelease request).retErr = none
    ∧ (poolRelease request.Pid = none →
        (rpcRelease poolRelease request).response.Ok = 1)
    ∧ ((poolRelease request.Pid).isSome = true →
        (rpcRelease poolRelease request).response.Ok = 2) := by
  unfold rpcRelease
  cases hr : poolRelease request.Pid <;> simp [hr]

/-- Witness for C9 on an always-successful pool at pid 42. -/
theorem c9_witness :
    (rpcRelease releaseOkFn ⟨42⟩).releaseCalls = [(42 : Int)]
    ∧ (rpcRelease releaseOkFn ⟨42⟩).retErr = none
    ∧ (releaseOkFn 42 = none → (rpcRelease releaseOkFn ⟨42⟩).response.Ok = 1)
    ∧ ((releaseOkFn 42).isSome = true → (rpcRelease releaseOkFn ⟨42⟩).response.Ok = 2) :=
  c9_rpc_release releaseOkFn ⟨42⟩

end RRHttp
